import Mathlib

/-!
Verification of the massa-auto-rebuy client (src/main.rs, src/rpc.rs):
a shallow embedding of the typed JSON-RPC client, the operation-construction
pipeline (`send_operation`) and the orchestrating `main`, with theorems about
the expiration-window computation, the wire parameter shapes and the error
paths. External effects (the node's RPC answers, the wallet, the slot clock)
are passed in as explicit oracle values; u64 arithmetic is modelled on `Nat`
with an explicit reduction modulo 2^64 where the source adds u64 values
(release-build wrapping semantics).
-/

/-- The size of the u64 value range: u64 additions in the source wrap modulo
this constant. -/
def U64_SIZE : Nat := 2 ^ 64

/-- massa_models Slot: `(period: u64, thread: u8)` (src/rpc.rs uses
`Slot::new(0, 0)`, `slot.period`, `slot.thread`). -/
structure Slot where
  period : Nat
  thread : Nat
deriving DecidableEq, Repr

/-- The subset of the node status config read by `send_operation`
(src/rpc.rs lines 36-41): `cfg.thread_count`, `cfg.t0`,
`cfg.genesis_timestamp`, `cfg.operation_validity_periods`. -/
structure CompactConfig where
  thread_count : Nat
  t0 : Nat
  genesis_timestamp : Nat
  operation_validity_periods : Nat
deriving DecidableEq, Repr

/-- NodeStatus as consumed by `send_operation`: only its `config` field is
read (src/rpc.rs line 36). -/
structure NodeStatus where
  config : CompactConfig
deriving DecidableEq, Repr

/-- Amount: raw u64 of the smallest unit (`Amount::from_raw`). -/
abbrev Amount := Nat

/-- Public keys are opaque to this client; an abstract identifier. -/
abbrev PublicKey := Nat

/-- Operation ids are opaque to this client; an abstract identifier. -/
abbrev OperationId := Nat

/-- massa_models Address, abstracted: an opaque identifier together with its
deterministic `get_thread(thread_count)` scheduling map (the hash-based map
lives in massa_models, outside this repository; `send_operation` only calls
it, src/rpc.rs line 41). -/
structure Address where
  id : Nat
  get_thread : Nat → Nat

/-- massa_models OperationType: the closed variant set; main.rs only builds
`RollBuy { roll_count: 1 }`. -/
inductive OperationType where
  | Transaction (recipient_address : Nat) (amount : Amount)
  | RollBuy (roll_count : Nat)
  | RollSell (roll_count : Nat)
deriving DecidableEq, Repr

/-- massa_models OperationContent as built in src/rpc.rs lines 50-55. -/
structure OperationContent where
  sender_public_key : PublicKey
  fee : Amount
  expire_period : Nat
  op : OperationType
deriving DecidableEq, Repr

/-- A signed operation (massa_models Operation): the content plus a
signature produced by the wallet. -/
structure Operation where
  content : OperationContent
  signature : Nat
deriving DecidableEq, Repr

/-- The wallet capability used by `send_operation` (massa_wallet):
`find_associated_public_key` (src/rpc.rs line 44) and `create_operation`
(src/rpc.rs line 49), kept abstract as oracle functions. -/
structure Wallet where
  find_associated_public_key : Address → Option PublicKey
  create_operation : OperationContent → Address → Except String Operation

/-- The external effects `send_operation` consumes, as oracle results:
the node's answer to `get_status` (src/rpc.rs line 32), the result of
`get_current_latest_block_slot` (line 38, a `Result<Option<Slot>>` computed
in massa_models from the local clock), and the node's answer to
`send_operations` (line 59). -/
structure SendOpEnv where
  get_status : Except String NodeStatus
  current_slot : Except String (Option Slot)
  send_operations : List Operation → Except String (List OperationId)

/-- Observable effects of one `send_operation` run, in order: RPC calls,
slot computation, wallet interactions and lines printed to standard
output. Addresses are recorded by their opaque identifier. -/
inductive Event where
  | rpcGetStatus
  | slotComputation
  | walletFindKey (addr_id : Nat)
  | walletCreateOperation (content : OperationContent) (addr_id : Nat)
  | rpcSendOperations (ops : List Operation)
  | printLine (line : String)
deriving DecidableEq, Repr

/-- True exactly on `walletCreateOperation` events. -/
def Event.isWalletCreateOperation : Event → Bool
  | .walletCreateOperation _ _ => true
  | _ => false

/-- True exactly on `rpcSendOperations` events. -/
def Event.isRpcSendOperations : Event → Bool
  | .rpcSendOperations _ => true
  | _ => false

/-- The line a `printLine` event wrote, if any. -/
def Event.printedLine : Event → Option String
  | .printLine line => some line
  | _ => none

/-- The `rpc_error!` macro of src/rpc.rs lines 18-22:
`bail!("check if your node is running: {}", e)`. -/
def rpc_error_msg (e : String) : String :=
  "check if your node is running: " ++ e

/-- `.unwrap_or_else(|| Slot::new(0, 0))` of src/rpc.rs line 39: a missing
current slot defaults to `Slot { period: 0, thread: 0 }`. -/
def resolve_slot (opt_slot : Option Slot) : Slot :=
  opt_slot.getD (Slot.mk 0 0)

/-- The expire-period computation of src/rpc.rs lines 40-43:
`let mut expire_period = slot.period + cfg.operation_validity_periods;`
then `expire_period += 1` when
`slot.thread >= addr.get_thread(cfg.thread_count)`. Both additions are on
u64 and wrap modulo 2^64. `addr_thread` stands for
`addr.get_thread(cfg.thread_count)`. -/
def compute_expire_period (slot : Slot) (operation_validity_periods : Nat)
    (addr_thread : Nat) : Nat :=
  let expire_period := (slot.period + operation_validity_periods) % U64_SIZE
  if addr_thread ≤ slot.thread then (expire_period + 1) % U64_SIZE
  else expire_period

/-- `send_operation` of src/rpc.rs lines 24-68, as a function of its oracle
environment. Returns the `Result<()>` value and the ordered list of
observable effects. Mirrors the source line by line: `get_status` with
`rpc_error!` on failure; the current-slot computation with `?` propagation
and the `Slot::new(0, 0)` default; the expire-period computation; the wallet
key lookup with `bail!("Missing public key")`; `wallet.create_operation`
with `?` propagation; `send_operations` with `rpc_error!` on failure and,
on success, `println!("Sent operation IDs:")` when `json` is false (the
returned `operation_ids` are bound but never printed). -/
def send_operation (env : SendOpEnv) (wallet : Wallet) (op : OperationType)
    (fee : Amount) (addr : Address) (json : Bool) :
    Except String Unit × List Event :=
  match env.get_status with
  | .error e => (.error (rpc_error_msg e), [.rpcGetStatus])
  | .ok node_status =>
    let cfg := node_status.config
    match env.current_slot with
    | .error e => (.error e, [.rpcGetStatus, .slotComputation])
    | .ok opt_slot =>
      let slot := resolve_slot opt_slot
      let expire_period :=
        compute_expire_period slot cfg.operation_validity_periods
          (addr.get_thread cfg.thread_count)
      match wallet.find_associated_public_key addr with
      | none =>
        (.error "Missing public key",
          [.rpcGetStatus, .slotComputation, .walletFindKey addr.id])
      | some sender_public_key =>
        let content : OperationContent :=
          { sender_public_key := sender_public_key, fee := fee,
            expire_period := expire_period, op := op }
        match wallet.create_operation content addr with
        | .error e =>
          (.error e,
            [.rpcGetStatus, .slotComputation, .walletFindKey addr.id,
              .walletCreateOperation content addr.id])
        | .ok signed_op =>
          match env.send_operations [signed_op] with
          | .ok _ =>
            (.ok (),
              [.rpcGetStatus, .slotComputation, .walletFindKey addr.id,
                .walletCreateOperation content addr.id,
                .rpcSendOperations [signed_op]] ++
                (if !json then [.printLine "Sent operation IDs:"] else []))
          | .error e =>
            (.error (rpc_error_msg e),
              [.rpcGetStatus, .slotComputation, .walletFindKey addr.id,
                .walletCreateOperation content addr.id,
                .rpcSendOperations [signed_op]])

/-- massa_models RollsInfo, fields read by main.rs line 23. -/
structure RollsInfo where
  candidate_rolls : Nat
deriving DecidableEq, Repr

/-- massa_models LedgerData: the balance of one ledger view. -/
structure LedgerData where
  balance : Amount
deriving DecidableEq, Repr

/-- massa_models LedgerInfo, field path read by main.rs line 23:
`ledger_info.final_ledger_info.balance`. -/
structure LedgerInfo where
  final_ledger_info : LedgerData
deriving DecidableEq, Repr

/-- massa_models AddressInfo, fields read by main.rs lines 23-24. -/
structure AddressInfo where
  address : Address
  rolls : RollsInfo
  ledger_info : LedgerInfo

/-- The orchestration of src/main.rs lines 21-27, as a function of the
oracle result of `get_addresses` and of the `send_operation` environment.
Mirrors the source: `if let Ok(wallet_addresses) = wallet_info` (an `Err` is
silently dropped and `main` falls through to `Ok(())`); the guard
`!wallet_addresses.is_empty() && wallet_addresses[0].rolls.candidate_rolls
== 0 && wallet_addresses[0].ledger_info.final_ledger_info.balance >=
Amount::from_raw(100000000000)`; on success of the guard,
`send_operation(&client, &wallet, RollBuy { roll_count: 1 },
Amount::from_raw(0), wallet_addresses[0].address, true)` with `?`
propagation. The middle component records the invocation of
`send_operation`, if any: the operation type, the fee, the target address
identifier and the `json` flag. -/
def main_flow (wallet_info : Except String (List AddressInfo))
    (env : SendOpEnv) (wallet : Wallet) :
    Except String Unit × Option (OperationType × Amount × Nat × Bool) × List Event :=
  match wallet_info with
  | .error _ => (.ok (), none, [])
  | .ok wallet_addresses =>
    match wallet_addresses with
    | [] => (.ok (), none, [])
    | a0 :: _ =>
      if a0.rolls.candidate_rolls = 0 ∧
          100000000000 ≤ a0.ledger_info.final_ledger_info.balance then
        let r := send_operation env wallet (OperationType.RollBuy 1) 0 a0.address true
        (r.1, some (OperationType.RollBuy 1, 0, a0.address.id, true), r.2)
      else
        (.ok (), none, [])

/-- The outcome of `RpcClient::from_url` (src/rpc.rs lines 101-106): either
a connected client handle, or a process abort through
`panic!("Unable to connect to Node.")`. There is no error-returning
alternative: a failed connection never becomes a per-call `RpcError`. -/
inductive ClientConstruction where
  | connected (client : Nat)
  | panicked (message : String)
deriving DecidableEq, Repr

/-- `RpcClient::from_url` of src/rpc.rs lines 101-106, as a function of the
oracle result of `http::connect`: `Ok(client) => client`,
`Err(_) => panic!("Unable to connect to Node.")`. -/
def from_url (connect_result : Except String Nat) : ClientConstruction :=
  match connect_result with
  | .ok client => .connected client
  | .error _ => .panicked "Unable to connect to Node."

/-- The serde_json value lattice, as far as this client serializes into it:
null (from `()`), numbers, strings, arrays (from `Vec<_>`) and objects
(from struct serialization such as `TimeInterval`). -/
inductive Json where
  | null
  | num (n : Nat)
  | str (s : String)
  | arr (items : List Json)
  | obj (fields : List (String × Json))

/-- massa_models api TimeInterval: optional start and end millisecond
timestamps. (`end` is a Lean keyword, hence the trailing underscore.) -/
structure TimeInterval where
  start : Option Nat
  end_ : Option Nat
deriving DecidableEq, Repr

/-- serde serialization of an `Option<MassaTime>` field: `None` becomes
JSON null, `Some(ms)` the number. -/
def jsonOfOptionTime : Option Nat → Json
  | none => Json.null
  | some ms => Json.num ms

/-- serde serialization of a `TimeInterval` value: a JSON object with the
fields `start` and `end` (not an array). -/
def TimeInterval.toJson (t : TimeInterval) : Json :=
  Json.obj [("start", jsonOfOptionTime t.start), ("end", jsonOfOptionTime t.end_)]

/-- One JSON-RPC call as handed to `call_method` (src/rpc.rs): the method
name and the serde_json serialization of the `args` expression the source
passes. `jsonrpc_core_client`'s TypedClient turns a JSON array into the
request's param list, JSON null (from `()`) into an absent param list, and
rejects any other shape client-side. -/
structure WireCall where
  method : String
  params : Json

namespace RpcClient

/-- src/rpc.rs lines 113-115: `call_method("stop_node", "()", ())` — the
args expression is `()`, which serializes to JSON null. -/
def stop_node : WireCall := ⟨"stop_node", Json.null⟩

/-- src/rpc.rs lines 119-123: args `vec![message]` with `message: Vec<u8>`;
a message is modelled by the list of the serializations of its bytes. -/
def node_sign_message (message : List Json) : WireCall :=
  ⟨"node_sign_message", Json.arr [Json.arr message]⟩

/-- src/rpc.rs lines 127-134: args `vec![private_keys]`. -/
def add_staking_private_keys (private_keys : List Json) : WireCall :=
  ⟨"add_staking_private_keys", Json.arr [Json.arr private_keys]⟩

/-- src/rpc.rs lines 138-142: args `vec![addresses]`. -/
def remove_staking_addresses (addresses : List Json) : WireCall :=
  ⟨"remove_staking_addresses", Json.arr [Json.arr addresses]⟩

/-- src/rpc.rs lines 145-149: args `()`. -/
def get_staking_addresses : WireCall := ⟨"get_staking_addresses", Json.null⟩

/-- src/rpc.rs lines 153-155: args `vec![ips]`. -/
def ban (ips : List Json) : WireCall := ⟨"ban", Json.arr [Json.arr ips]⟩

/-- src/rpc.rs lines 159-161: args `vec![ips]`. -/
def unban (ips : List Json) : WireCall := ⟨"unban", Json.arr [Json.arr ips]⟩

/-- src/rpc.rs lines 170-172: args `()`. -/
def get_status : WireCall := ⟨"get_status", Json.null⟩

/-- src/rpc.rs lines 174-176: args `()`. -/
def _get_cliques : WireCall := ⟨"get_cliques", Json.null⟩

/-- src/rpc.rs lines 181-185: args `()`. -/
def _get_stakers : WireCall := ⟨"get_stakers", Json.null⟩

/-- src/rpc.rs lines 188-195: args `vec![operation_ids]`. -/
def get_operations (operation_ids : List Json) : WireCall :=
  ⟨"get_operations", Json.arr [Json.arr operation_ids]⟩

/-- src/rpc.rs lines 197-208: args `vec![endorsement_ids]`. -/
def get_endorsements (endorsement_ids : List Json) : WireCall :=
  ⟨"get_endorsements", Json.arr [Json.arr endorsement_ids]⟩

/-- src/rpc.rs lines 211-215: args `vec![block_id]`. -/
def get_block (block_id : Json) : WireCall :=
  ⟨"get_block", Json.arr [block_id]⟩

/-- src/rpc.rs lines 219-226: args `time_interval` — passed directly, NOT
wrapped in `vec![...]`, so the params are the object serialization of the
`TimeInterval` itself. -/
def _get_graph_interval (time_interval : TimeInterval) : WireCall :=
  ⟨"get_graph_interval", time_interval.toJson⟩

/-- src/rpc.rs lines 228-235: args `vec![addresses]`. -/
def get_addresses (addresses : List Json) : WireCall :=
  ⟨"get_addresses", Json.arr [Json.arr addresses]⟩

/-- src/rpc.rs lines 240-247: args `vec![operations]`. -/
def send_operations (operations : List Json) : WireCall :=
  ⟨"send_operations", Json.arr [Json.arr operations]⟩

end RpcClient

/-- C1 counterexample: the claim asserts the computed expire_period equals
`S.period + V` (as an unbounded integer) whenever `S.thread < A.thread(T)`,
for every slot and validity-period value. Both are u64 and the addition
wraps: at `S.period = 2^64 - 1`, `V = 10`, sender thread 20 (no skew
correction since `5 < 20`), the code computes 9, not `2^64 + 9`. -/
theorem expire_period_overflow_cex :
    compute_expire_period (Slot.mk (U64_SIZE - 1) 5) 10 20 ≠ (U64_SIZE - 1) + 10 := by
  decide

/-- C1 (amended): in `send_operation`, provided `S.period + V + 1` fits in
u64 (no wraparound), the computed expire_period equals `S.period + V` when
`S.thread < A.thread(T)` and `S.period + V + 1` when
`S.thread >= A.thread(T)`; in particular with `V = 10` and current slot
`{period = 100, thread = 5}`, a sender of thread 5 gets 111 and a sender of
thread 20 gets 110. -/
theorem expire_period_formula (S : Slot) (V A_thread : Nat)
    (h : S.period + V + 1 < U64_SIZE) :
    (S.thread < A_thread → compute_expire_period S V A_thread = S.period + V)
    ∧ (A_thread ≤ S.thread → compute_expire_period S V A_thread = S.period + V + 1)
    ∧ compute_expire_period (Slot.mk 100 5) 10 5 = 111
    ∧ compute_expire_period (Slot.mk 100 5) 10 20 = 110 := by
  have h1 : (S.period + V) % U64_SIZE = S.period + V := Nat.mod_eq_of_lt (by omega)
  have h2 : (S.period + V + 1) % U64_SIZE = S.period + V + 1 := Nat.mod_eq_of_lt h
  refine ⟨fun hlt => ?_, fun hle => ?_, by decide, by decide⟩
  · simp only [compute_expire_period]
    rw [if_neg (by omega), h1]
  · simp only [compute_expire_period]
    rw [if_pos hle, h1, h2]

/-- C1 witness: the formula instantiated at slot `{period = 100, thread = 5}`,
`V = 10`, sender thread 20. -/
theorem expire_period_formula_witness :
    ((Slot.mk 100 5).thread < 20 →
      compute_expire_period (Slot.mk 100 5) 10 20 = (Slot.mk 100 5).period + 10)
    ∧ (20 ≤ (Slot.mk 100 5).thread →
      compute_expire_period (Slot.mk 100 5) 10 20 = (Slot.mk 100 5).period + 10 + 1)
    ∧ compute_expire_period (Slot.mk 100 5) 10 5 = 111
    ∧ compute_expire_period (Slot.mk 100 5) 10 20 = 110 :=
  expire_period_formula (Slot.mk 100 5) 10 20 (by decide)

/-- C2 counterexample: the claim asserts `expire_period > S.period` for every
config, `operation_validity_periods = 0` included. With `V = 0`, slot
`{period = 100, thread = 0}` and a sender of thread 5 (no skew correction
since `0 < 5`) the code computes exactly 100, not more. -/
theorem expire_not_above_period_cex :
    ¬ (Slot.mk 100 0).period < compute_expire_period (Slot.mk 100 0) 0 5 := by
  decide

/-- C2 (amended): the computed expire_period is strictly greater than the
current slot's period whenever `operation_validity_periods ≥ 1` and
`S.period + V + 1` fits in u64 (no wraparound). -/
theorem expire_after_current_period (S : Slot) (V A_thread : Nat)
    (hV : 1 ≤ V) (h : S.period + V + 1 < U64_SIZE) :
    S.period < compute_expire_period S V A_thread := by
  have h1 : (S.period + V) % U64_SIZE = S.period + V := Nat.mod_eq_of_lt (by omega)
  have h2 : (S.period + V + 1) % U64_SIZE = S.period + V + 1 := Nat.mod_eq_of_lt h
  simp only [compute_expire_period]
  split
  · rw [h1, h2]; omega
  · rw [h1]; omega

/-- C2 witness: the amended invariant at slot `{period = 100, thread = 5}`,
`V = 10`, sender thread 20. -/
theorem expire_after_current_period_witness :
    (Slot.mk 100 5).period < compute_expire_period (Slot.mk 100 5) 10 20 :=
  expire_after_current_period (Slot.mk 100 5) 10 20 (by decide) (by decide)

/-- C3 counterexample: the claim asserts every method's params are the
declared parameter list wrapped as a single JSON array, and in particular
that `get_graph_interval` sends `[time_interval]`. The source passes
`time_interval` unwrapped, so its params are the object serialization of
the `TimeInterval` itself (not a one-element array); and the zero-argument
`stop_node` passes `()`, which serializes to JSON null (not the empty
array). -/
theorem params_not_always_array_cex :
    (RpcClient._get_graph_interval (TimeInterval.mk none none)).params ≠
        Json.arr [TimeInterval.toJson (TimeInterval.mk none none)]
    ∧ RpcClient.stop_node.params ≠ Json.arr [] := by
  constructor
  · intro h
    simp [RpcClient._get_graph_interval, TimeInterval.toJson] at h
  · intro h
    simp [RpcClient.stop_node] at h

/-- C3 (amended): every method whose args expression is `vec![...]` sends
its declared parameter list wrapped as a single JSON array — the collection
arguments as one array element, `get_block`'s single id as one element —
while the zero-argument methods (`stop_node`, `get_staking_addresses`,
`get_status`, `get_cliques`, `get_stakers`) pass `()`, serialized as JSON
null rather than an empty array, and `get_graph_interval` passes
`time_interval` unwrapped, serialized as the JSON object
`{"start": ..., "end": ...}` rather than `[time_interval]`. -/
theorem params_wrapping_amended :
    RpcClient.stop_node = ⟨"stop_node", Json.null⟩
    ∧ (∀ m, RpcClient.node_sign_message m =
        ⟨"node_sign_message", Json.arr [Json.arr m]⟩)
    ∧ (∀ ks, RpcClient.add_staking_private_keys ks =
        ⟨"add_staking_private_keys", Json.arr [Json.arr ks]⟩)
    ∧ (∀ as_, RpcClient.remove_staking_addresses as_ =
        ⟨"remove_staking_addresses", Json.arr [Json.arr as_]⟩)
    ∧ RpcClient.get_staking_addresses = ⟨"get_staking_addresses", Json.null⟩
    ∧ (∀ ips, RpcClient.ban ips = ⟨"ban", Json.arr [Json.arr ips]⟩)
    ∧ (∀ ips, RpcClient.unban ips = ⟨"unban", Json.arr [Json.arr ips]⟩)
    ∧ RpcClient.get_status = ⟨"get_status", Json.null⟩
    ∧ RpcClient._get_cliques = ⟨"get_cliques", Json.null⟩
    ∧ RpcClient._get_stakers = ⟨"get_stakers", Json.null⟩
    ∧ (∀ ids, RpcClient.get_operations ids =
        ⟨"get_operations", Json.arr [Json.arr ids]⟩)
    ∧ (∀ ids, RpcClient.get_endorsements ids =
        ⟨"get_endorsements", Json.arr [Json.arr ids]⟩)
    ∧ (∀ bid, RpcClient.get_block bid = ⟨"get_block", Json.arr [bid]⟩)
    ∧ (∀ t, RpcClient._get_graph_interval t =
        ⟨"get_graph_interval",
          Json.obj [("start", jsonOfOptionTime t.start),
            ("end", jsonOfOptionTime t.end_)]⟩)
    ∧ (∀ as_, RpcClient.get_addresses as_ =
        ⟨"get_addresses", Json.arr [Json.arr as_]⟩)
    ∧ (∀ ops, RpcClient.send_operations ops =
        ⟨"send_operations", Json.arr [Json.arr ops]⟩) :=
  ⟨rfl, fun _ => rfl, fun _ => rfl, fun _ => rfl, rfl, fun _ => rfl,
    fun _ => rfl, rfl, rfl, rfl, fun _ => rfl, fun _ => rfl, fun _ => rfl,
    fun _ => rfl, fun _ => rfl, fun _ => rfl⟩

/-- C8: for every failed connection attempt, `RpcClient::from_url` ends in
the process-aborting panic with the message "Unable to connect to Node.",
and never in a connected client (so no RPC call can be attempted and no
per-call RpcError is returned). -/
theorem from_url_aborts_on_connect_failure (e : String) :
    from_url (.error e) = .panicked "Unable to connect to Node."
    ∧ ∀ c, from_url (.error e) ≠ .connected c := by
  refine ⟨rfl, fun c h => ?_⟩
  simp [from_url] at h

/-- C9: the orchestrator of main.rs invokes the roll-buy pipeline — with
operation `RollBuy { roll_count: 1 }`, fee 0, and the first address of the
fetched list as sender — exactly when the list is non-empty, its first
entry has `candidate_rolls = 0` and its first entry's final-ledger balance
is at least 100000000000 raw units; and the decision and its target depend
only on the first entry of the list. -/
theorem main_buys_iff (ws : List AddressInfo) (env : SendOpEnv) (wallet : Wallet) :
    ((main_flow (.ok ws) env wallet).2.1 ≠ none ↔
      ∃ a0, ws.head? = some a0 ∧ a0.rolls.candidate_rolls = 0 ∧
        100000000000 ≤ a0.ledger_info.final_ledger_info.balance)
    ∧ (∀ p, (main_flow (.ok ws) env wallet).2.1 = some p →
        ∃ a0, ws.head? = some a0 ∧
          p = (OperationType.RollBuy 1, 0, a0.address.id, true))
    ∧ (∀ ws2 : List AddressInfo, ws.head? = ws2.head? →
        (main_flow (.ok ws) env wallet).2.1 = (main_flow (.ok ws2) env wallet).2.1) := by
  have key_nil : (main_flow (.ok ([] : List AddressInfo)) env wallet).2.1 = none := rfl
  have key_cons : ∀ (a0 : AddressInfo) (rest : List AddressInfo),
      (main_flow (.ok (a0 :: rest)) env wallet).2.1 =
        if a0.rolls.candidate_rolls = 0 ∧
            100000000000 ≤ a0.ledger_info.final_ledger_info.balance then
          some (OperationType.RollBuy 1, 0, a0.address.id, true)
        else none := by
    intro a0 rest
    simp only [main_flow]
    split <;> rfl
  refine ⟨?_, ?_, ?_⟩
  · cases ws with
    | nil => simp [key_nil]
    | cons a0 rest =>
      rw [key_cons]
      by_cases hc : a0.rolls.candidate_rolls = 0 ∧
          100000000000 ≤ a0.ledger_info.final_ledger_info.balance
      · rw [if_pos hc]
        constructor
        · intro _
          exact ⟨a0, rfl, hc.1, hc.2⟩
        · intro _
          simp
      · rw [if_neg hc]
        constructor
        · intro hne
          exact absurd rfl hne
        · rintro ⟨a1, ha1, h1, h2⟩
          cases Option.some.inj ha1
          exact (hc ⟨h1, h2⟩).elim
  · intro p hp
    cases ws with
    | nil =>
      rw [key_nil] at hp
      cases hp
    | cons a0 rest =>
      rw [key_cons] at hp
      by_cases hc : a0.rolls.candidate_rolls = 0 ∧
          100000000000 ≤ a0.ledger_info.final_ledger_info.balance
      · rw [if_pos hc] at hp
        exact ⟨a0, rfl, (Option.some.inj hp).symm⟩
      · rw [if_neg hc] at hp
        cases hp
  · intro ws2 hhead
    cases ws with
    | nil =>
      cases ws2 with
      | nil => rfl
      | cons b0 r2 => simp at hhead
    | cons a0 r =>
      cases ws2 with
      | nil => simp at hhead
      | cons b0 r2 =>
        have hab : a0 = b0 := by simpa using hhead
        subst hab
        rw [key_cons, key_cons]

/-- C10: when the initial `get_addresses` call fails, `main` drops the error
(`if let Ok(...)` with no else branch) and falls through to `Ok(())`: the
process result is success, `send_operation` is never invoked, and nothing
is printed or reported about the failure. -/
theorem main_swallows_get_addresses_error (e : String) (env : SendOpEnv)
    (wallet : Wallet) :
    main_flow (.error e) env wallet = (.ok (), none, []) := rfl

/-- A concrete sender address: opaque id 7, scheduled on thread 5 for every
thread count. -/
def testAddr : Address := ⟨7, fun _ => 5⟩

/-- The node config of the worked spec example: 32 threads, t0 = 16000 ms,
genesis timestamp 0, validity window 10 periods. -/
def testConfig : CompactConfig := ⟨32, 16000, 0, 10⟩

/-- A reachable node: status ok with `testConfig`, current slot
`{period = 100, thread = 5}`, and `send_operations` accepting every
submitted operation with id 42. -/
def envUp : SendOpEnv :=
  ⟨.ok ⟨testConfig⟩, .ok (some (Slot.mk 100 5)), fun ops => .ok (ops.map fun _ => 42)⟩

/-- An unreachable node: `get_status` fails with "connection refused". -/
def envDown : SendOpEnv :=
  ⟨.error "connection refused", .ok (some (Slot.mk 100 5)), fun _ => .ok []⟩

/-- A wallet holding no key for any address. -/
def walletNoKey : Wallet := ⟨fun _ => none, fun content _ => .ok ⟨content, 0⟩⟩

/-- A wallet that resolves every address to public key 9 and signs every
content. -/
def walletWithKey : Wallet := ⟨fun _ => some 9, fun content _ => .ok ⟨content, 0⟩⟩

/-- C4: whenever the wallet resolves the sender address to no public key,
`send_operation` fails (never succeeds), never invokes the wallet's
`create_operation` signing capability, never submits anything via
`send_operations`, and — in every run that reaches the key lookup, i.e.
whenever `get_status` and the slot computation succeed — the failure
message is the "Missing public key" diagnostic. -/
theorem missing_key_precondition (env : SendOpEnv) (wallet : Wallet)
    (op : OperationType) (fee : Amount) (addr : Address) (json : Bool)
    (hkey : wallet.find_associated_public_key addr = none) :
    (∃ msg, (send_operation env wallet op fee addr json).1 = .error msg)
    ∧ (send_operation env wallet op fee addr json).2.filter
        Event.isWalletCreateOperation = []
    ∧ (send_operation env wallet op fee addr json).2.filter
        Event.isRpcSendOperations = []
    ∧ ∀ ns os, env.get_status = .ok ns → env.current_slot = .ok os →
        (send_operation env wallet op fee addr json).1 = .error "Missing public key" := by
  cases hst : env.get_status with
  | error e =>
    have hred : send_operation env wallet op fee addr json =
        (.error (rpc_error_msg e), [.rpcGetStatus]) := by
      simp only [send_operation, hst]
    rw [hred]
    refine ⟨⟨rpc_error_msg e, rfl⟩, rfl, rfl, ?_⟩
    intro ns os h1 h2
    cases h1
  | ok ns =>
    cases hsl : env.current_slot with
    | error e2 =>
      have hred : send_operation env wallet op fee addr json =
          (.error e2, [.rpcGetStatus, .slotComputation]) := by
        simp only [send_operation, hst, hsl]
      rw [hred]
      refine ⟨⟨e2, rfl⟩, rfl, rfl, ?_⟩
      intro ns2 os h1 h2
      cases h2
    | ok os =>
      have hred : send_operation env wallet op fee addr json =
          (.error "Missing public key",
            [.rpcGetStatus, .slotComputation, .walletFindKey addr.id]) := by
        simp only [send_operation, hst, hsl, hkey]
      rw [hred]
      exact ⟨⟨"Missing public key", rfl⟩, rfl, rfl, fun _ _ _ _ => rfl⟩

/-- C4 witness: the keyless wallet against the reachable node. -/
theorem missing_key_precondition_witness :
    (∃ msg, (send_operation envUp walletNoKey (OperationType.RollBuy 1) 0 testAddr true).1 =
      .error msg)
    ∧ (send_operation envUp walletNoKey (OperationType.RollBuy 1) 0 testAddr true).2.filter
        Event.isWalletCreateOperation = []
    ∧ (send_operation envUp walletNoKey (OperationType.RollBuy 1) 0 testAddr true).2.filter
        Event.isRpcSendOperations = []
    ∧ ∀ ns os, envUp.get_status = .ok ns → envUp.current_slot = .ok os →
        (send_operation envUp walletNoKey (OperationType.RollBuy 1) 0 testAddr true).1 =
          .error "Missing public key" :=
  missing_key_precondition envUp walletNoKey (OperationType.RollBuy 1) 0 testAddr true rfl

/-- C5: whenever the initial `get_status` call fails with message `e`,
`send_operation` returns the error "check if your node is running: " ++ e
and its effect trace is exactly the one `get_status` call: no slot
computation, no wallet key lookup, no signing and no submission happen. -/
theorem get_status_failure_is_fatal (env : SendOpEnv) (wallet : Wallet)
    (op : OperationType) (fee : Amount) (addr : Address) (json : Bool) (e : String)
    (hstatus : env.get_status = .error e) :
    send_operation env wallet op fee addr json =
      (.error ("check if your node is running: " ++ e), [Event.rpcGetStatus]) := by
  simp [send_operation, hstatus, rpc_error_msg]

/-- C5 witness: the unreachable node. -/
theorem get_status_failure_is_fatal_witness :
    send_operation envDown walletWithKey (OperationType.RollBuy 1) 0 testAddr true =
      (.error ("check if your node is running: " ++ "connection refused"),
        [Event.rpcGetStatus]) :=
  get_status_failure_is_fatal envDown walletWithKey (OperationType.RollBuy 1) 0 testAddr
    true "connection refused" rfl

/-- C6 (code bug): against the reachable node — whose `send_operations`
accepts the submitted operation and returns the id list [42] — a successful
`send_operation` run with `json = false` prints exactly the header line
"Sent operation IDs:" and nothing else: the accepted identifiers the node
returned are bound to `operation_ids` and discarded, never printed. With
`json = true` (the flag main.rs passes) nothing at all is printed. -/
theorem sent_ids_not_printed :
    (send_operation envUp walletWithKey (OperationType.RollBuy 1) 0 testAddr false).1 = .ok ()
    ∧ envUp.send_operations
        [Operation.mk (OperationContent.mk 9 0 111 (OperationType.RollBuy 1)) 0] = .ok [42]
    ∧ (send_operation envUp walletWithKey (OperationType.RollBuy 1) 0 testAddr false).2.filterMap
        Event.printedLine = ["Sent operation IDs:"]
    ∧ (send_operation envUp walletWithKey (OperationType.RollBuy 1) 0 testAddr true).2.filterMap
        Event.printedLine = [] :=
  ⟨rfl, rfl, rfl, rfl⟩

/-- C7: the current-slot computation result is used as follows — a
successful computation with no slot yet defaults to
`Slot { period: 0, thread: 0 }`, a successful one with a slot uses that
slot unchanged, and a failed one makes `send_operation` fail with that very
error (no default substituted), its trace stopping right after the slot
computation: no key lookup, no signing, no submission. -/
theorem slot_default_and_error_propagation :
    resolve_slot none = Slot.mk 0 0
    ∧ (∀ s, resolve_slot (some s) = s)
    ∧ ∀ (env : SendOpEnv) (wallet : Wallet) (op : OperationType) (fee : Amount)
        (addr : Address) (json : Bool) (ns : NodeStatus) (e : String),
        env.get_status = .ok ns → env.current_slot = .error e →
        send_operation env wallet op fee addr json =
          (.error e, [Event.rpcGetStatus, Event.slotComputation]) := by
  refine ⟨rfl, fun s => rfl, ?_⟩
  intro env wallet op fee addr json ns e h1 h2
  simp [send_operation, h1, h2]
